import Mathlib

/-!
Verification of the `ros2_to_serial_bridge` main program
(`src/ros2_serial_example/src/ros2_to_serial_bridge_main.cpp`).

The file embeds the startup negotiation (`dynamically_get_serial_mapping`),
the table selection done by the `ROS2SerialBridge` constructor, the reader
loop (`read_thread_func`) and the destructor's teardown sequence as pure
Lean functions.  The `Transporter` is an external collaborator: its `read`
and `write` calls are modelled by an explicit trace of outcomes that the
environment supplies, one trace element per loop iteration.  CDR
deserialization of a received buffer is likewise external and is modelled
by the `Option SerialMappingMsg` outcome carried in each trace element.
-/

deriving instance DecidableEq for Except

namespace RosSerialBridge

/-- `TopicMapping::Direction` from the pubsub support code: whether a mapped
topic flows serial→ROS2, ROS2→serial, or is not yet known (invalid). -/
inductive Direction where
  | UNKNOWN
  | SERIAL_TO_ROS2
  | ROS2_TO_SERIAL
deriving DecidableEq, Repr

/-- `ros2_to_serial_bridge::pubsub::TopicMapping`: one entry of the topic
table, holding the 8-bit serial id, the message type name and the
direction. -/
structure TopicMapping where
  serial_mapping : Nat
  type : String
  direction : Direction
deriving DecidableEq, Repr

/-- Modelled from the spec: the numeric direction codes of the
`ros2_serial_msgs/SerialMapping` message (`SERIALTOROS2`, `ROS2TOSERIAL`).
The message definition lives in the `ros2_serial_msgs` package, which is
absent from the sources; the spec fixes only that there are exactly two
codes (SerialToBus and BusToSerial), so they are modelled by the two
distinct values 1 and 2. -/
def SERIALTOROS2 : Nat := 1

/-- Modelled from the spec: the second direction code, see `SERIALTOROS2`. -/
def ROS2TOSERIAL : Nat := 2

/-- `ros2_serial_msgs::msg::SerialMapping`: the negotiation response message,
four parallel sequences describing the topic table. -/
structure SerialMappingMsg where
  topic_names : List String
  serial_mappings : List Nat
  types : List String
  direction : List Nat
deriving DecidableEq, Repr

/-- The distinct `std::runtime_error`s thrown by the bridge code that is
modelled here, one constructor per throw site. -/
inductive BridgeError where
  | writeFailed
  | deserializeFailed
  | noResponse
  | sizeMismatch
  | unknownDirection
  | reservedSerialId
deriving DecidableEq, Repr

/-- The `std::map<std::string, TopicMapping>` used by the bridge, embedded as
an association list whose keys are unique (maintained by `mapInsert`). -/
abbrev Table := List (String × TopicMapping)

/-- `std::map::operator[]` followed by assignment: bind `k` to `v`, replacing
an existing binding for `k` and otherwise appending a new one. -/
def mapInsert : Table → String → TopicMapping → Table
  | [], k, v => [(k, v)]
  | (k', v') :: rest, k, v =>
    if k' = k then (k, v) :: rest else (k', v') :: mapInsert rest k v

/-- `std::map::find`-style lookup in the embedded table. -/
def mapLookup : Table → String → Option TopicMapping
  | [], _ => none
  | (k', v') :: rest, k => if k' = k then some v' else mapLookup rest k

/-- The direction-code translation performed by the loop body of
`dynamically_get_serial_mapping` (main.cpp lines 342-354): `SERIALTOROS2`
and `ROS2TOSERIAL` map to the matching `Direction` value, anything else
throws "Unknown direction for topic, cannot continue". -/
def translate_direction (d : Nat) : Except BridgeError Direction :=
  if d = SERIALTOROS2 then .ok .SERIAL_TO_ROS2
  else if d = ROS2TOSERIAL then .ok .ROS2_TO_SERIAL
  else .error .unknownDirection

/-- The table-building loop of `dynamically_get_serial_mapping`
(main.cpp lines 334-355): walk the four parallel sequences in index order
and bind each topic name to a fresh `TopicMapping` built from that index,
so a repeated name keeps only its last occurrence.  The loop bound is
`topic_names.size()`; the mismatched-lists arm is unreachable because the
caller has already checked that all four sequences have equal length. -/
def build_table : List String → List Nat → List String → List Nat → Table →
    Except BridgeError Table
  | [], _, _, _, acc => .ok acc
  | n :: ns, m :: ms, t :: ts, d :: ds, acc =>
    match translate_direction d with
    | .error e => .error e
    | .ok dir => build_table ns ms ts ds (mapInsert acc n ⟨m, t, dir⟩)
  | _, _, _, _, _ => .error .sizeMismatch

/-- The response-processing tail of `dynamically_get_serial_mapping`
(main.cpp lines 327-357): reject the message unless its four sequences all
have the same length ("Serial mapping message names, mappings, types, and
directions must all be the same size"), then build the table. -/
def process_serial_mapping_msg (msg : SerialMappingMsg) :
    Except BridgeError Table :=
  if msg.topic_names.length ≠ msg.serial_mappings.length ∨
     msg.topic_names.length ≠ msg.types.length ∨
     msg.topic_names.length ≠ msg.direction.length then
    .error .sizeMismatch
  else
    build_table msg.topic_names msg.serial_mappings msg.types msg.direction []

/-- One iteration of the negotiation wait loop, as supplied by the
environment: the outcome of the `transporter_->read` call (`readLen`,
`readTopic`), the outcome `payload` of attempting CDR deserialization of
the read buffer as a `SerialMapping` message (`none` models the
`NotEnoughMemoryException` thrown by Fast-CDR on a buffer that is not such
a message), and `elapsedAfter`, the millisecond clock reading
`now - start` taken at the end of the iteration. -/
structure ReadIter where
  readLen : Int
  readTopic : Nat
  payload : Option SerialMappingMsg
  elapsedAfter : Nat
deriving DecidableEq, Repr

/-- The do/while wait loop of `dynamically_get_serial_mapping`
(main.cpp lines 289-325), one trace element per iteration.  A read with
positive length on topic 1 exits the loop: deserialization failure throws
("Not enough memory for deserialization of SerialMapping message"), success
yields the message.  Any other read outcome falls through to the deadline
check: `diff_ms` is only updated when `wait_ms > 0`, and the loop repeats
while `diff_ms < wait_ms`, after which a missing response throws
("No response to dynamic serial request").  `none` means the supplied trace
ended before the loop could exit (in the running program the clock
eventually exceeds any budget, so a long-enough trace always exits). -/
def negotiation_wait (wait_ms : Nat) : List ReadIter →
    Option (Except BridgeError SerialMappingMsg)
  | [] => none
  | it :: rest =>
    if 0 < it.readLen ∧ it.readTopic = 1 then
      match it.payload with
      | none => some (.error .deserializeFailed)
      | some msg => some (.ok msg)
    else
      let diff := if 0 < wait_ms then it.elapsedAfter else 0
      if diff < wait_ms then negotiation_wait wait_ms rest
      else some (.error .noResponse)

/-- One call to `transporter_->write`, recorded as (topic id, payload
length). -/
structure WriteCall where
  topicId : Nat
  payloadLen : Nat
deriving DecidableEq, Repr

/-- Modelled from the spec: the serialized length of the discovery request,
the CDR serialization of `std_msgs::msg::Empty` produced by the external
typesupport code.  The spec states the request is a "zero-payload
'discovery' frame on reserved topic 0", so the length is 0. -/
def empty_msg_serialized_length : Nat := 0

/-- The observable outcome of one run of `dynamically_get_serial_mapping`:
the `Transporter.write` calls it performed and its result — `some (.ok t)`
for a returned table, `some (.error e)` for a throw, `none` when the
supplied read trace was too short for the wait loop to exit. -/
structure NegotiationRun where
  writes : List WriteCall
  result : Option (Except BridgeError Table)
deriving DecidableEq, Repr

/-- `dynamically_get_serial_mapping` (main.cpp lines 266-358): serialize an
empty request message and write it once on topic 0 (a negative write result
throws "Failed to write dynamic message"), then run the wait loop over the
supplied read trace and process the received response.  `write_result` is
the environment-supplied return value of that single write call. -/
def dynamically_get_serial_mapping (wait_ms : Nat) (write_result : Int)
    (trace : List ReadIter) : NegotiationRun :=
  ⟨[⟨0, empty_msg_serialized_length⟩],
    if write_result < 0 then some (.error .writeFailed)
    else
      match negotiation_wait wait_ms trace with
      | none => none
      | some (.error e) => some (.error e)
      | some (.ok msg) => some (process_serial_mapping_msg msg)⟩

/-- The table-selection step of the `ROS2SerialBridge` constructor
(main.cpp lines 107-115): when `dynamic_serial_mapping_ms > 0` the table
comes from `dynamically_get_serial_mapping` (the positive value is the
wait budget), otherwise from `parse_node_parameters_for_topics`, whose
successful result is the environment-supplied `static_table`. -/
def bridge_get_table (dynamic_serial_mapping_ms : Int) (static_table : Table)
    (write_result : Int) (trace : List ReadIter) :
    Option (Except BridgeError Table) :=
  if 0 < dynamic_serial_mapping_ms then
    (dynamically_get_serial_mapping dynamic_serial_mapping_ms.toNat
      write_result trace).result
  else
    some (.ok static_table)

/-- Modelled from the spec: the validation `ROS2Topics` performs when it
accepts the topic table (the `ROS2Topics` implementation is the generated
file `ros2_topics.hpp`, absent from the sources).  The spec states that
"serial_id 0 and 1 are reserved for the negotiation protocol itself and
must not appear in the application mapping table", so a table carrying a
reserved id is rejected before use. -/
def ros2_topics_accept (tbl : Table) : Except BridgeError Table :=
  if tbl.any (fun e => e.2.serial_mapping == 0 || e.2.serial_mapping == 1) then
    .error .reservedSerialId
  else
    .ok tbl

/-- The full startup path that produces the table the bridge runs with:
the constructor's table selection followed by `ROS2Topics` accepting the
table (main.cpp lines 117-119). -/
def bridge_startup_table (dynamic_serial_mapping_ms : Int)
    (static_table : Table) (write_result : Int) (trace : List ReadIter) :
    Option (Except BridgeError Table) :=
  match bridge_get_table dynamic_serial_mapping_ms static_table write_result
      trace with
  | none => none
  | some (.error e) => some (.error e)
  | some (.ok tbl) => some (ros2_topics_accept tbl)

/-- One iteration of the reader loop, as supplied by the environment: the
outcome of the `transporter_->read` call and whether
`local_future.wait_for(0)` at the end of the iteration reports that the
exit signal has been set (`futureReady = true` means the status is no
longer `timeout`). -/
structure ReaderIter where
  readLen : Int
  readTopic : Nat
  futureReady : Bool
deriving DecidableEq, Repr

/-- One call to `ros2_topics_->dispatch`, recorded as (topic id, length). -/
structure DispatchCall where
  topicId : Nat
  length : Int
deriving DecidableEq, Repr

/-- `read_thread_func` (main.cpp lines 141-160): a do/while loop that calls
`transporter_->read`, dispatches the frame when the result is positive,
and repeats until `local_future.wait_for(0)` stops reporting `timeout`.
Returns the number of read calls performed and the dispatch calls made.
`[]` stands for a trace that supplies no iteration at all (no reads, no
dispatches). -/
def read_thread_func : List ReaderIter → Nat × List DispatchCall
  | [] => (0, [])
  | it :: rest =>
    let ds := if 0 < it.readLen then [⟨it.readTopic, it.readLen⟩] else []
    if it.futureReady then (1, ds)
    else
      let r := read_thread_func rest
      (r.1 + 1, ds ++ r.2)

/-- The three teardown actions of `~ROS2SerialBridge`. -/
inductive TeardownAct where
  | setExitSignal
  | joinReadThread
  | closeTransporter
deriving DecidableEq, Repr

/-- `~ROS2SerialBridge` (main.cpp lines 131-137), as the sequence of actions
it performs: `exit_signal_.set_value()`, then `read_thread_.join()`, then
`transporter_->close()`. -/
def bridge_destructor : List TeardownAct :=
  [.setExitSignal, .joinReadThread, .closeTransporter]

/-! ### Lemmas about the embedded `std::map` operations -/

theorem mapLookup_mapInsert_self (m : Table) (k : String) (v : TopicMapping) :
    mapLookup (mapInsert m k v) k = some v := by
  induction m with
  | nil => simp [mapInsert, mapLookup]
  | cons e rest ih =>
    obtain ⟨k', v'⟩ := e
    by_cases h : k' = k
    · simp [mapInsert, h, mapLookup]
    · simp [mapInsert, h, mapLookup, ih]

theorem mapLookup_mapInsert_ne (m : Table) (k a : String) (v : TopicMapping)
    (h : a ≠ k) : mapLookup (mapInsert m k v) a = mapLookup m a := by
  induction m with
  | nil =>
    simp only [mapInsert, mapLookup]
    rw [if_neg fun hk => h hk.symm]
  | cons e rest ih =>
    obtain ⟨k', v'⟩ := e
    by_cases hk : k' = k
    · subst hk
      simp only [mapInsert, if_pos rfl, mapLookup]
      rw [if_neg fun hk => h hk.symm, if_neg fun hk => h hk.symm]
    · simp only [mapInsert, if_neg hk, mapLookup]
      by_cases ha : k' = a
      · rw [if_pos ha, if_pos ha]
      · rw [if_neg ha, if_neg ha, ih]

theorem mem_keys_mapInsert (m : Table) (k a : String) (v : TopicMapping) :
    a ∈ (mapInsert m k v).map Prod.fst ↔ a = k ∨ a ∈ m.map Prod.fst := by
  induction m with
  | nil => simp [mapInsert, eq_comm]
  | cons e rest ih =>
    obtain ⟨k', v'⟩ := e
    by_cases h : k' = k
    · subst h
      simp [mapInsert, eq_comm]
    · simp only [mapInsert, if_neg h, List.map_cons, List.mem_cons, ih]
      tauto

theorem keys_nodup_mapInsert (m : Table) (k : String) (v : TopicMapping)
    (h : (m.map Prod.fst).Nodup) :
    ((mapInsert m k v).map Prod.fst).Nodup := by
  induction m with
  | nil => simp [mapInsert]
  | cons e rest ih =>
    obtain ⟨k', v'⟩ := e
    simp only [List.map_cons, List.nodup_cons] at h
    by_cases hk : k' = k
    · subst hk
      simpa [mapInsert, List.nodup_cons] using h
    · simp only [mapInsert, if_neg hk, List.map_cons, List.nodup_cons]
      refine ⟨?_, ih h.2⟩
      rw [mem_keys_mapInsert]
      rintro (rfl | hmem)
      · exact hk rfl
      · exact h.1 hmem

theorem mem_mapInsert (m : Table) (k a : String) (v w : TopicMapping)
    (h : (a, w) ∈ mapInsert m k v) : (a, w) = (k, v) ∨ (a, w) ∈ m := by
  induction m with
  | nil => simpa [mapInsert] using h
  | cons e rest ih =>
    obtain ⟨k', v'⟩ := e
    by_cases hk : k' = k
    · subst hk
      rw [mapInsert, if_pos rfl] at h
      rcases List.mem_cons.mp h with h | h
      · exact Or.inl h
      · exact Or.inr (List.mem_cons_of_mem _ h)
    · rw [mapInsert, if_neg hk] at h
      rcases List.mem_cons.mp h with h | h
      · exact Or.inr (List.mem_cons.mpr (Or.inl h))
      · rcases ih h with h' | h'
        · exact Or.inl h'
        · exact Or.inr (List.mem_cons_of_mem _ h')

theorem isSome_mapLookup_mapInsert (m : Table) (k a : String)
    (v : TopicMapping) :
    (mapLookup (mapInsert m k v) a).isSome ↔
      a = k ∨ (mapLookup m a).isSome := by
  by_cases h : a = k
  · subst h
    simp [mapLookup_mapInsert_self]
  · rw [mapLookup_mapInsert_ne m k a v h]
    simp [h]

/-! ### Lemmas about the table-building loop -/

theorem translate_direction_ok_ne (d : Nat) (dir : Direction)
    (h : translate_direction d = .ok dir) : dir ≠ .UNKNOWN := by
  unfold translate_direction at h
  split at h
  · cases h
    decide
  · split at h
    · cases h
      decide
    · cases h

theorem build_table_nil_ok (ms : List Nat) (ts : List String) (ds : List Nat)
    (acc tbl : Table) (h : build_table [] ms ts ds acc = .ok tbl) :
    tbl = acc := by
  simp [build_table] at h
  exact h.symm

theorem build_table_cons_ok (hd : String) (tl : List String) (ms : List Nat)
    (ts : List String) (ds : List Nat) (acc tbl : Table)
    (h : build_table (hd :: tl) ms ts ds acc = .ok tbl) :
    ∃ m ms' t ts' d ds' dir, ms = m :: ms' ∧ ts = t :: ts' ∧ ds = d :: ds' ∧
      translate_direction d = .ok dir ∧
      build_table tl ms' ts' ds' (mapInsert acc hd ⟨m, t, dir⟩) = .ok tbl := by
  cases ms with
  | nil => simp [build_table] at h
  | cons m ms' =>
    cases ts with
    | nil => simp [build_table] at h
    | cons t ts' =>
      cases ds with
      | nil => simp [build_table] at h
      | cons d ds' =>
        simp only [build_table] at h
        split at h
        · simp at h
        · rename_i dir htd
          exact ⟨m, ms', t, ts', d, ds', dir, rfl, rfl, rfl, htd, h⟩

theorem build_table_lookup_of_not_mem (ns : List String) (ms : List Nat)
    (ts : List String) (ds : List Nat) (acc tbl : Table) (n : String)
    (h : build_table ns ms ts ds acc = .ok tbl) (hn : n ∉ ns) :
    mapLookup tbl n = mapLookup acc n := by
  induction ns generalizing ms ts ds acc with
  | nil => rw [build_table_nil_ok ms ts ds acc tbl h]
  | cons hd tl ih =>
    obtain ⟨m, ms', t, ts', d, ds', dir, rfl, rfl, rfl, htd, h'⟩ :=
      build_table_cons_ok hd tl ms ts ds acc tbl h
    have hn1 : n ≠ hd := fun he => hn (by rw [he]; exact List.mem_cons_self hd tl)
    have hn2 : n ∉ tl := fun hm => hn (List.mem_cons_of_mem _ hm)
    rw [ih ms' ts' ds' _ h' hn2, mapLookup_mapInsert_ne acc hd n _ hn1]

theorem build_table_keys_nodup (ns : List String) (ms : List Nat)
    (ts : List String) (ds : List Nat) (acc tbl : Table)
    (h : build_table ns ms ts ds acc = .ok tbl)
    (hacc : (acc.map Prod.fst).Nodup) : (tbl.map Prod.fst).Nodup := by
  induction ns generalizing ms ts ds acc with
  | nil =>
    rw [build_table_nil_ok ms ts ds acc tbl h]
    exact hacc
  | cons hd tl ih =>
    obtain ⟨m, ms', t, ts', d, ds', dir, rfl, rfl, rfl, htd, h'⟩ :=
      build_table_cons_ok hd tl ms ts ds acc tbl h
    exact ih ms' ts' ds' _ h' (keys_nodup_mapInsert acc hd _ hacc)

theorem build_table_isSome (ns : List String) (ms : List Nat)
    (ts : List String) (ds : List Nat) (acc tbl : Table)
    (h : build_table ns ms ts ds acc = .ok tbl) (n : String) :
    (mapLookup tbl n).isSome ↔ n ∈ ns ∨ (mapLookup acc n).isSome := by
  induction ns generalizing ms ts ds acc with
  | nil =>
    rw [build_table_nil_ok ms ts ds acc tbl h]
    simp
  | cons hd tl ih =>
    obtain ⟨m, ms', t, ts', d, ds', dir, rfl, rfl, rfl, htd, h'⟩ :=
      build_table_cons_ok hd tl ms ts ds acc tbl h
    rw [ih ms' ts' ds' _ h', isSome_mapLookup_mapInsert, List.mem_cons]
    tauto

theorem build_table_direction_ok (ns : List String) (ms : List Nat)
    (ts : List String) (ds : List Nat) (acc tbl : Table)
    (h : build_table ns ms ts ds acc = .ok tbl)
    (hacc : ∀ e ∈ acc, e.2.direction ≠ Direction.UNKNOWN) :
    ∀ e ∈ tbl, e.2.direction ≠ Direction.UNKNOWN := by
  induction ns generalizing ms ts ds acc with
  | nil =>
    rw [build_table_nil_ok ms ts ds acc tbl h]
    exact hacc
  | cons hd tl ih =>
    obtain ⟨m, ms', t, ts', d, ds', dir, rfl, rfl, rfl, htd, h'⟩ :=
      build_table_cons_ok hd tl ms ts ds acc tbl h
    refine ih ms' ts' ds' _ h' ?_
    rintro ⟨a, w⟩ he
    rcases mem_mapInsert acc hd a ⟨m, t, dir⟩ w he with heq | hmem
    · have hw : w = ⟨m, t, dir⟩ := congrArg Prod.snd heq
      rw [hw]
      exact translate_direction_ok_ne d dir htd
    · exact hacc ⟨a, w⟩ hmem

theorem build_table_lookup_last (ns : List String) (ms : List Nat)
    (ts : List String) (ds : List Nat) (acc tbl : Table)
    (h : build_table ns ms ts ds acc = .ok tbl) :
    ∀ i : Nat, i < ns.length →
      (∀ j : Nat, j < ns.length → i < j → ns.getD j "" ≠ ns.getD i "") →
      ∃ dir, translate_direction (ds.getD i 0) = .ok dir ∧
        mapLookup tbl (ns.getD i "") =
          some ⟨ms.getD i 0, ts.getD i "", dir⟩ := by
  induction ns generalizing ms ts ds acc with
  | nil =>
    intro i hi _
    simp at hi
  | cons hd tl ih =>
    intro i hi hlast
    obtain ⟨m, ms', t, ts', d, ds', dir, rfl, rfl, rfl, htd, h'⟩ :=
      build_table_cons_ok hd tl ms ts ds acc tbl h
    cases i with
    | zero =>
      have hnot : hd ∉ tl := by
        intro hmem
        obtain ⟨j, hj, hje⟩ := List.mem_iff_getElem.mp hmem
        refine hlast (j + 1) (by simpa using Nat.succ_lt_succ hj)
          (Nat.succ_pos j) ?_
        simp only [List.getD_cons_succ, List.getD_cons_zero]
        rw [List.getD_eq_getElem tl "" hj]
        exact hje
      refine ⟨dir, ?_, ?_⟩
      · simpa [List.getD_cons_zero] using htd
      · simp only [List.getD_cons_zero]
        rw [build_table_lookup_of_not_mem tl ms' ts' ds' _ tbl hd h' hnot,
          mapLookup_mapInsert_self]
    | succ i' =>
      have hi' : i' < tl.length := by simpa using hi
      have hlast' : ∀ j : Nat, j < tl.length → i' < j →
          tl.getD j "" ≠ tl.getD i' "" := by
        intro j hj hij
        have := hlast (j + 1) (by simpa using Nat.succ_lt_succ hj)
          (Nat.succ_lt_succ hij)
        simpa [List.getD_cons_succ] using this
      have := ih ms' ts' ds' _ h' i' hi' hlast'
      simpa [List.getD_cons_succ] using this

/-! ### Lemmas about the negotiation wait loop -/

theorem negotiation_wait_no_response (wait_ms : Nat) (trace : List ReadIter)
    (hne : trace ≠ [])
    (hnof : ∀ it ∈ trace, ¬ (0 < it.readLen ∧ it.readTopic = 1))
    (hdl : wait_ms = 0 ∨ ∃ it ∈ trace, wait_ms ≤ it.elapsedAfter) :
    negotiation_wait wait_ms trace = some (.error .noResponse) := by
  induction trace with
  | nil => exact absurd rfl hne
  | cons it rest ih =>
    have hx : ¬ (0 < it.readLen ∧ it.readTopic = 1) :=
      hnof it (List.mem_cons_self it rest)
    rcases Nat.eq_zero_or_pos wait_ms with hz | hp
    · subst hz
      simp [negotiation_wait, hx]
    · by_cases hlt : it.elapsedAfter < wait_ms
      · have hrec : negotiation_wait wait_ms rest = some (.error .noResponse) := by
          rcases hdl with hz | ⟨it', hmem', hle'⟩
          · omega
          · rcases List.mem_cons.mp hmem' with rfl | hmem''
            · omega
            · exact ih (List.ne_nil_of_mem hmem'')
                (fun a ha => hnof a (List.mem_cons_of_mem _ ha))
                (Or.inr ⟨it', hmem'', hle'⟩)
        simp [negotiation_wait, hx, if_pos hp, hlt, hrec]
      · simp [negotiation_wait, hx, if_pos hp, hlt]

theorem dyn_mapping_timeout_error (wait_ms : Nat) (w : Int)
    (trace : List ReadIter) (hw : ¬ w < 0) (hne : trace ≠ [])
    (hnof : ∀ it ∈ trace, ¬ (0 < it.readLen ∧ it.readTopic = 1))
    (hdl : wait_ms = 0 ∨ ∃ it ∈ trace, wait_ms ≤ it.elapsedAfter) :
    (dynamically_get_serial_mapping wait_ms w trace).result =
      some (.error .noResponse) := by
  have hlw := negotiation_wait_no_response wait_ms trace hne hnof hdl
  simp [dynamically_get_serial_mapping, hw, hlw]

theorem process_ok_build (msg : SerialMappingMsg) (tbl : Table)
    (h : process_serial_mapping_msg msg = .ok tbl) :
    build_table msg.topic_names msg.serial_mappings msg.types msg.direction []
      = .ok tbl := by
  unfold process_serial_mapping_msg at h
  split at h
  · cases h
  · exact h

/-! ### The claims -/

/-- C1: a negotiation response whose four parallel sequences (topic names,
serial mappings, types, directions) are not all of equal length makes
`dynamically_get_serial_mapping` throw the size-mismatch error — whichever
sequence is the short one — so no `TopicMapping` entries are produced
(an error result carries no table). -/
theorem C1_mismatched_lengths_rejected (wait_ms : Nat) (w : Int)
    (trace : List ReadIter) (msg : SerialMappingMsg)
    (hw : ¬ w < 0)
    (hmsg : negotiation_wait wait_ms trace = some (.ok msg))
    (hlen : ¬ (msg.topic_names.length = msg.serial_mappings.length ∧
               msg.topic_names.length = msg.types.length ∧
               msg.topic_names.length = msg.direction.length)) :
    (dynamically_get_serial_mapping wait_ms w trace).result =
      some (.error .sizeMismatch) := by
  have hcond : msg.topic_names.length ≠ msg.serial_mappings.length ∨
      msg.topic_names.length ≠ msg.types.length ∨
      msg.topic_names.length ≠ msg.direction.length := by tauto
  have hp : process_serial_mapping_msg msg = .error .sizeMismatch := by
    unfold process_serial_mapping_msg
    rw [if_pos hcond]
  simp [dynamically_get_serial_mapping, hw, hmsg, hp]

/-- Witness for C1: a response whose `topic_names` has one element while the
other three sequences are empty is rejected as malformed. -/
theorem C1_witness :
    (dynamically_get_serial_mapping 5 0
        [⟨1, 1, some ⟨["a"], [], [], []⟩, 0⟩]).result =
      some (.error .sizeMismatch) :=
  C1_mismatched_lengths_rejected 5 0 [⟨1, 1, some ⟨["a"], [], [], []⟩, 0⟩]
    ⟨["a"], [], [], []⟩ (by decide) (by rfl) (by decide)

/-- C2: when no frame on reserved topic 1 arrives in any loop iteration
before the deadline expires (the request write itself having succeeded),
`dynamically_get_serial_mapping` throws the no-response error, so startup
aborts and no `TopicMapping` table — empty or otherwise — is returned. -/
theorem C2_timeout_reports_failure (wait_ms : Nat) (w : Int)
    (trace : List ReadIter) (hw : ¬ w < 0) (hne : trace ≠ [])
    (hnof : ∀ it ∈ trace, ¬ (0 < it.readLen ∧ it.readTopic = 1))
    (hdl : wait_ms = 0 ∨ ∃ it ∈ trace, wait_ms ≤ it.elapsedAfter) :
    (dynamically_get_serial_mapping wait_ms w trace).result =
      some (.error .noResponse) :=
  dyn_mapping_timeout_error wait_ms w trace hw hne hnof hdl

/-- Witness for C2: a run whose only read times out and whose clock then
exceeds the 10 ms budget throws the no-response error. -/
theorem C2_witness :
    (dynamically_get_serial_mapping 10 0 [⟨0, 0, none, 20⟩]).result =
      some (.error .noResponse) :=
  C2_timeout_reports_failure 10 0 [⟨0, 0, none, 20⟩] (by decide) (by decide)
    (by decide) (Or.inr (by decide))

/-- C4: every run of `dynamically_get_serial_mapping` performs exactly one
`Transporter.write` call, on reserved topic 0 with a zero-byte payload,
and it happens before the wait loop consumes any read. -/
theorem C4_single_zero_payload_request (wait_ms : Nat) (w : Int)
    (trace : List ReadIter) :
    (dynamically_get_serial_mapping wait_ms w trace).writes = [⟨0, 0⟩] := rfl

/-- C3 counterexample: the claim that a negative `Transporter.read` result
terminates the reader loop is false.  On a trace whose first read returns
-1 (with the cancellation future not yet ready), `read_thread_func`
performs a second read call — the loop body ignores non-positive read
results and only the future governs termination. -/
theorem C3_counterexample :
    (read_thread_func [⟨-1, 0, false⟩, ⟨0, 0, true⟩]).1 = 2 := rfl

/-- C3 amended: in the reader loop a negative `Transporter.read` result is
treated exactly like a zero result — it dispatches nothing and merely
causes another iteration whenever the cancellation future is not yet
ready; termination is governed solely by the future, checked once per
iteration. -/
theorem C3_negative_read_continues (it : ReaderIter) (rest : List ReaderIter)
    (hneg : it.readLen < 0) (hnr : it.futureReady = false) :
    (read_thread_func (it :: rest)).1 = (read_thread_func rest).1 + 1 ∧
    (read_thread_func (it :: rest)).2 = (read_thread_func rest).2 := by
  have hnp : ¬ 0 < it.readLen := by omega
  simp [read_thread_func, hnr, hnp]

/-- Witness for the amended C3: after a -1 read the loop performs the next
iteration's read and dispatches nothing. -/
theorem C3_witness :
    (read_thread_func [⟨-1, 0, false⟩, ⟨0, 0, true⟩]).1 =
      (read_thread_func [⟨0, 0, true⟩]).1 + 1 ∧
    (read_thread_func [⟨-1, 0, false⟩, ⟨0, 0, true⟩]).2 =
      (read_thread_func [⟨0, 0, true⟩]).2 :=
  C3_negative_read_continues ⟨-1, 0, false⟩ [⟨0, 0, true⟩] (by decide) rfl

/-- C5 counterexample: the claim that a negotiation timeout falls back to
the static table is false.  With dynamic mapping enabled (budget 100 ms), a
static table available, and a run in which no topic-1 frame arrives before
the deadline, the constructor's table selection produces the no-response
error (startup aborts) — not the static table. -/
theorem C5_counterexample :
    bridge_get_table 100 [("chatter", ⟨5, "std_msgs/String", .ROS2_TO_SERIAL⟩)]
        0 [⟨0, 0, none, 200⟩] = some (.error .noResponse) ∧
    bridge_get_table 100 [("chatter", ⟨5, "std_msgs/String", .ROS2_TO_SERIAL⟩)]
        0 [⟨0, 0, none, 200⟩] ≠
      some (.ok [("chatter", ⟨5, "std_msgs/String", .ROS2_TO_SERIAL⟩)]) := by
  exact ⟨rfl, by decide⟩

/-- C5 amended: when the startup handshake's timeout expires without a valid
response the negotiation throws and the bridge aborts startup; there is no
fallback — the static table is used only when dynamic discovery is disabled
(`dynamic_serial_mapping_ms ≤ 0`). -/
theorem C5_no_fallback_to_static (dm : Int) (static_table : Table) (w : Int)
    (trace : List ReadIter) (hw : ¬ w < 0) (hne : trace ≠ [])
    (hnof : ∀ it ∈ trace, ¬ (0 < it.readLen ∧ it.readTopic = 1))
    (hdl : ∃ it ∈ trace, dm.toNat ≤ it.elapsedAfter) :
    (0 < dm →
      bridge_get_table dm static_table w trace = some (.error .noResponse)) ∧
    (dm ≤ 0 →
      bridge_get_table dm static_table w trace = some (.ok static_table)) := by
  constructor
  · intro hdm
    have := dyn_mapping_timeout_error dm.toNat w trace hw hne hnof
      (Or.inr hdl)
    simpa [bridge_get_table, hdm] using this
  · intro hdm
    have hnp : ¬ 0 < dm := by omega
    simp [bridge_get_table, hnp]

/-- Witness for the amended C5: with a 100 ms budget and a response-free
trace whose clock reaches 200 ms, the dynamic path errors out instead of
returning the available static table. -/
theorem C5_witness :
    ((0 : Int) < 100 →
      bridge_get_table 100 [("a", ⟨5, "t", .ROS2_TO_SERIAL⟩)] 0
        [⟨0, 0, none, 200⟩] = some (.error .noResponse)) ∧
    ((100 : Int) ≤ 0 →
      bridge_get_table 100 [("a", ⟨5, "t", .ROS2_TO_SERIAL⟩)] 0
        [⟨0, 0, none, 200⟩] =
        some (.ok [("a", ⟨5, "t", .ROS2_TO_SERIAL⟩)])) :=
  C5_no_fallback_to_static 100 [("a", ⟨5, "t", .ROS2_TO_SERIAL⟩)] 0
    [⟨0, 0, none, 200⟩] (by decide) (by decide) (by decide) (by decide)

/-- C6: every table the startup path accepts — negotiated or static — is
free of the reserved serial ids 0 and 1; a table assigning a reserved id to
an application topic is rejected (by the spec-modelled `ROS2Topics`
validation) before the table is used. -/
theorem C6_no_reserved_serial_ids (dm : Int) (static_table : Table) (w : Int)
    (trace : List ReadIter) (tbl : Table)
    (h : bridge_startup_table dm static_table w trace = some (.ok tbl)) :
    ∀ e ∈ tbl, e.2.serial_mapping ≠ 0 ∧ e.2.serial_mapping ≠ 1 := by
  unfold bridge_startup_table at h
  split at h
  · exact Option.noConfusion h
  · injection h with h2
    cases h2
  · injection h with h2
    unfold ros2_topics_accept at h2
    split at h2
    · cases h2
    · rename_i hany
      injection h2 with h3
      subst h3
      intro e he
      simp only [List.any_eq_true, not_exists] at hany
      have hne2 : ¬ ((e.2.serial_mapping == 0 || e.2.serial_mapping == 1)
          = true) := fun hb => hany e ⟨he, hb⟩
      simp only [Bool.or_eq_true, beq_iff_eq] at hne2
      exact ⟨fun h0 => hne2 (Or.inl h0), fun h1 => hne2 (Or.inr h1)⟩

/-- Witness for C6: the accepted static table with serial id 5 carries no
reserved id in its (only) entry. -/
theorem C6_witness :
    (("a", ⟨5, "t", .ROS2_TO_SERIAL⟩) :
        String × TopicMapping).2.serial_mapping ≠ 0 ∧
    (("a", ⟨5, "t", .ROS2_TO_SERIAL⟩) :
        String × TopicMapping).2.serial_mapping ≠ 1 :=
  C6_no_reserved_serial_ids 0 [("a", ⟨5, "t", .ROS2_TO_SERIAL⟩)] 0 []
    [("a", ⟨5, "t", .ROS2_TO_SERIAL⟩)] rfl ("a", ⟨5, "t", .ROS2_TO_SERIAL⟩)
    (List.mem_cons_self _ _)

/-- C7: while building the table from a negotiation response, a direction
code equal to `SERIALTOROS2` or `ROS2TOSERIAL` is translated to the
corresponding `Direction` value, any other code makes the whole
negotiation throw the unknown-direction error, and a successfully built
table never contains an entry whose direction is `UNKNOWN`. -/
theorem C7_direction_codes :
    (∀ (n : String) (ns : List String) (m : Nat) (ms : List Nat) (t : String)
        (ts : List String) (ds : List Nat) (acc : Table),
        build_table (n :: ns) (m :: ms) (t :: ts) (SERIALTOROS2 :: ds) acc =
          build_table ns ms ts ds
            (mapInsert acc n ⟨m, t, .SERIAL_TO_ROS2⟩)) ∧
    (∀ (n : String) (ns : List String) (m : Nat) (ms : List Nat) (t : String)
        (ts : List String) (ds : List Nat) (acc : Table),
        build_table (n :: ns) (m :: ms) (t :: ts) (ROS2TOSERIAL :: ds) acc =
          build_table ns ms ts ds
            (mapInsert acc n ⟨m, t, .ROS2_TO_SERIAL⟩)) ∧
    (∀ (n : String) (ns : List String) (m : Nat) (ms : List Nat) (t : String)
        (ts : List String) (d : Nat) (ds : List Nat) (acc : Table),
        d ≠ SERIALTOROS2 → d ≠ ROS2TOSERIAL →
        build_table (n :: ns) (m :: ms) (t :: ts) (d :: ds) acc =
          .error .unknownDirection) ∧
    (∀ (msg : SerialMappingMsg) (tbl : Table),
        process_serial_mapping_msg msg = .ok tbl →
        ∀ e ∈ tbl, e.2.direction ≠ .UNKNOWN) := by
  refine ⟨?_, ?_, ?_, ?_⟩
  · intro n ns m ms t ts ds acc
    simp [build_table, translate_direction, SERIALTOROS2, ROS2TOSERIAL]
  · intro n ns m ms t ts ds acc
    simp [build_table, translate_direction, SERIALTOROS2, ROS2TOSERIAL]
  · intro n ns m ms t ts d ds acc h1 h2
    simp [build_table, translate_direction, h1, h2]
  · intro msg tbl h
    exact build_table_direction_ok msg.topic_names msg.serial_mappings
      msg.types msg.direction [] tbl (process_ok_build msg tbl h)
      (fun e he => absurd he (List.not_mem_nil e))

/-- Witness for C7: code 9 is rejected as an unknown direction, and the
table built from codes 1 and 2 carries no `UNKNOWN` direction. -/
theorem C7_witness :
    build_table ["a"] [7] ["t"] [9] [] = .error .unknownDirection ∧
    ∀ e ∈ ([("a", ⟨10, "tA", .SERIAL_TO_ROS2⟩)] : Table),
      e.2.direction ≠ .UNKNOWN :=
  ⟨C7_direction_codes.2.2.1 "a" [] 7 [] "t" [] 9 [] [] (by decide)
      (by decide),
    C7_direction_codes.2.2.2 ⟨["a"], [10], ["tA"], [1]⟩
      [("a", ⟨10, "tA", .SERIAL_TO_ROS2⟩)] rfl⟩

/-- C8: the destructor of `ROS2SerialBridge` performs exactly the sequence
set-exit-signal, join-reader-thread, close-transporter: the `Transporter`
is closed only after the reader thread has been joined, and the signal is
set before the join. -/
theorem C8_teardown_order :
    bridge_destructor =
      [.setExitSignal, .joinReadThread, .closeTransporter] ∧
    List.indexOf TeardownAct.setExitSignal bridge_destructor <
      List.indexOf TeardownAct.joinReadThread bridge_destructor ∧
    List.indexOf TeardownAct.joinReadThread bridge_destructor <
      List.indexOf TeardownAct.closeTransporter bridge_destructor :=
  ⟨rfl, by decide, by decide⟩

/-- C9: in the negotiation wait loop, the first frame received on topic 1
whose buffer cannot be deserialized as a `SerialMapping` message makes the
whole negotiation throw immediately (also at the level of
`dynamically_get_serial_mapping`), while a read that is not a topic-1
frame — another topic, a timeout, or an error — is merely discarded and
polling continues as long as the deadline has not passed. -/
theorem C9_undeserializable_response_aborts :
    (∀ (wait_ms : Nat) (it : ReadIter) (rest : List ReadIter),
        0 < it.readLen → it.readTopic = 1 → it.payload = none →
        negotiation_wait wait_ms (it :: rest) =
          some (.error .deserializeFailed)) ∧
    (∀ (wait_ms : Nat) (w : Int) (it : ReadIter) (rest : List ReadIter),
        ¬ w < 0 → 0 < it.readLen → it.readTopic = 1 → it.payload = none →
        (dynamically_get_serial_mapping wait_ms w (it :: rest)).result =
          some (.error .deserializeFailed)) ∧
    (∀ (wait_ms : Nat) (it : ReadIter) (rest : List ReadIter),
        ¬ (0 < it.readLen ∧ it.readTopic = 1) →
        (if 0 < wait_ms then it.elapsedAfter else 0) < wait_ms →
        negotiation_wait wait_ms (it :: rest) =
          negotiation_wait wait_ms rest) := by
  have habort : ∀ (wait_ms : Nat) (it : ReadIter) (rest : List ReadIter),
      0 < it.readLen → it.readTopic = 1 → it.payload = none →
      negotiation_wait wait_ms (it :: rest) =
        some (.error .deserializeFailed) := by
    intro wait_ms it rest h1 h2 hp
    simp [negotiation_wait, h1, h2, hp]
  refine ⟨habort, ?_, ?_⟩
  · intro wait_ms w it rest hw h1 h2 hp
    have := habort wait_ms it rest h1 h2 hp
    simp [dynamically_get_serial_mapping, hw, this]
  · intro wait_ms it rest hx hlt
    simp only [negotiation_wait, hx, if_false, if_pos hlt]

/-- Witness for C9: a topic-1 frame that fails deserialization aborts the
run, while a topic-7 frame is skipped. -/
theorem C9_witness :
    negotiation_wait 10 [⟨3, 1, none, 0⟩] =
      some (.error .deserializeFailed) ∧
    (dynamically_get_serial_mapping 10 0 [⟨3, 1, none, 0⟩]).result =
      some (.error .deserializeFailed) ∧
    negotiation_wait 10 [⟨3, 7, none, 0⟩, ⟨3, 1, none, 0⟩] =
      negotiation_wait 10 [⟨3, 1, none, 0⟩] :=
  ⟨C9_undeserializable_response_aborts.1 10 ⟨3, 1, none, 0⟩ [] (by decide)
      rfl rfl,
    C9_undeserializable_response_aborts.2.1 10 0 ⟨3, 1, none, 0⟩ []
      (by decide) (by decide) rfl rfl,
    C9_undeserializable_response_aborts.2.2 10 ⟨3, 7, none, 0⟩
      [⟨3, 1, none, 0⟩] (by decide) (by decide)⟩

/-- C10: a table returned by the response-processing stage is keyed by
topic name — its keys are pairwise distinct, a name is present exactly
when it occurs in `topic_names`, and a name's entry carries the serial
mapping, type and (translated) direction of its last occurrence in the
response. -/
theorem C10_last_occurrence_wins (msg : SerialMappingMsg) (tbl : Table)
    (h : process_serial_mapping_msg msg = .ok tbl) :
    (tbl.map Prod.fst).Nodup ∧
    (∀ n : String, (mapLookup tbl n).isSome ↔ n ∈ msg.topic_names) ∧
    (∀ i : Nat, i < msg.topic_names.length →
      (∀ j : Nat, j < msg.topic_names.length → i < j →
        msg.topic_names.getD j "" ≠ msg.topic_names.getD i "") →
      ∃ dir, translate_direction (msg.direction.getD i 0) = .ok dir ∧
        mapLookup tbl (msg.topic_names.getD i "") =
          some ⟨msg.serial_mappings.getD i 0, msg.types.getD i "", dir⟩) := by
  have hb := process_ok_build msg tbl h
  refine ⟨build_table_keys_nodup _ _ _ _ _ _ hb (by simp), ?_, ?_⟩
  · intro n
    rw [build_table_isSome _ _ _ _ _ _ hb n]
    simp [mapLookup]
  · exact build_table_lookup_last _ _ _ _ _ _ hb

/-- Witness for C10: in a response naming "a" at indices 0 and 2, the
returned table binds "a" to the index-2 entry (serial 30, type "tC") and
"b" to its unique entry. -/
theorem C10_witness :
    ∃ dir,
      translate_direction
          ((⟨["a", "b", "a"], [10, 20, 30], ["tA", "tB", "tC"],
            [1, 2, 2]⟩ : SerialMappingMsg).direction.getD 2 0) = .ok dir ∧
      mapLookup [("a", ⟨30, "tC", .ROS2_TO_SERIAL⟩),
          ("b", ⟨20, "tB", .ROS2_TO_SERIAL⟩)]
          ((⟨["a", "b", "a"], [10, 20, 30], ["tA", "tB", "tC"],
            [1, 2, 2]⟩ : SerialMappingMsg).topic_names.getD 2 "") =
        some ⟨(⟨["a", "b", "a"], [10, 20, 30], ["tA", "tB", "tC"],
            [1, 2, 2]⟩ : SerialMappingMsg).serial_mappings.getD 2 0,
          (⟨["a", "b", "a"], [10, 20, 30], ["tA", "tB", "tC"],
            [1, 2, 2]⟩ : SerialMappingMsg).types.getD 2 "", dir⟩ :=
  (C10_last_occurrence_wins
      ⟨["a", "b", "a"], [10, 20, 30], ["tA", "tB", "tC"], [1, 2, 2]⟩
      [("a", ⟨30, "tC", .ROS2_TO_SERIAL⟩),
        ("b", ⟨20, "tB", .ROS2_TO_SERIAL⟩)] rfl).2.2 2 (by decide)
    (by decide)

end RosSerialBridge
